import Mathlib

/-!
Verification of the School-Management-System backend core: a shallow
embedding of the authentication, role-based access control, and
relational-integrity service layer, with theorems checking the
natural-language specification against the code.

Documents are modelled as Lean structures, MongoDB collections as lists
of documents, and each service method as a function from a database
state to `Except Err` of its result (a thrown `CustomError` aborts the
operation, so an error result carries no updated state: nothing is
written).  Identifiers (`ObjectId`s) are modelled as `Nat`; instants
(`Date`s) as `Nat`; JS numbers used for marks as `Rat`.
-/

namespace SMS

/-- The `CustomError(message, httpStatus)` thrown by services
(`src/middleware/errorHandler`). -/
structure Err where
  msg : String
  status : Nat
deriving Repr, DecidableEq

/-- Whether an `Except` result is a success (used to state that an
operation fails without caring which error aborted it). -/
def exceptIsOk {ε α : Type} : Except ε α → Bool
  | .ok _ => true
  | .error _ => false

/-! ## User documents (`user.model.ts`) -/

/-- A persisted `User` document.  `role` and `status` are the literal
strings the source compares against (`'ADMIN'`, `'ACTIVE'`, ...).
`metaClass` models the `meta.class` path. -/
structure UserDoc where
  id : Nat
  email : String
  passwordHash : String
  firstName : String
  lastName : String
  role : String
  status : String
  resetPasswordToken : Option String := none
  resetPasswordExpires : Option Nat := none
  lastLogin : Option Nat := none
  metaClass : Option Nat := none
deriving Repr, DecidableEq

/-- Embeds `User.findById`. -/
def findUser (users : List UserDoc) (id : Nat) : Option UserDoc :=
  users.find? (fun u => u.id = id)

/-- Embeds `UserService.getUserByEmail`: `User.findOne({ email })`. -/
def getUserByEmail (users : List UserDoc) (email : String) : Option UserDoc :=
  users.find? (fun u => u.email = email)

/-! ## Class documents (`class.model.ts`) -/

/-- A persisted `Class` document.  `sectionName` embeds the source's
`section` field (`section` is a Lean keyword). -/
structure ClassDoc where
  id : Nat
  name : String
  sectionName : String
  year : Nat
  classTeacher : Nat
  students : List Nat := []
  subjects : List Nat := []
  capacity : Nat := 30
  status : String := "ACTIVE"
deriving Repr, DecidableEq

/-- Embeds `Class.findById`. -/
def findClass (classes : List ClassDoc) (id : Nat) : Option ClassDoc :=
  classes.find? (fun c => c.id = id)

/-- Schema validation run by Mongoose on `save()` for a `Class`:
required/maxlength on `name` and `section`, the 2020–2030 bounds on
`year`, the 1–100 bounds on `capacity`, and the status enum. -/
def classValidate (c : ClassDoc) : Bool :=
  c.name ≠ "" && c.name.length ≤ 50 &&
  c.sectionName ≠ "" && c.sectionName.length ≤ 10 &&
  2020 ≤ c.year && c.year ≤ 2030 &&
  1 ≤ c.capacity && c.capacity ≤ 100 &&
  (c.status = "ACTIVE" || c.status = "INACTIVE")

/-- Embeds `document.save()` persistence for a `Class` document: replace the
document with this `_id` if present, else insert it (`_id` is unique). -/
def saveClassDoc (classes : List ClassDoc) (c : ClassDoc) : List ClassDoc :=
  if classes.any (fun d => d.id = c.id) then
    classes.map (fun d => if d.id = c.id then c else d)
  else
    classes ++ [c]

/-! ## Exam and Grade documents (`exam.model.ts`, `grade.model.ts`) -/

/-- A persisted `Exam` document (fields used by the exams service). -/
structure ExamDoc where
  id : Nat
  name : String
  classId : Nat
  subject : Nat
  date : Nat
  maxMarks : Rat
  duration : Nat
  examType : String
  status : String := "SCHEDULED"
  createdBy : Nat
deriving Repr, DecidableEq

/-- Embeds `Exam.findById`. -/
def findExam (exams : List ExamDoc) (id : Nat) : Option ExamDoc :=
  exams.find? (fun e => e.id = id)

/-- A persisted `Grade` document.  The `grade` letter field is `none`
while unset (the service constructor `new Grade({...})` does not supply
it; only the pre-save hook ever assigns it). -/
structure GradeDoc where
  id : Nat
  exam : Nat
  student : Nat
  marks : Rat
  grade : Option String := none
  remarks : Option String := none
  gradedBy : Nat
deriving Repr, DecidableEq

/-- The fixed breakpoint table of `gradeSchema.pre('save')`, as a
function of the computed percentage. -/
def letterOfPercentage (p : Rat) : String :=
  if p ≥ 90 then "A+"
  else if p ≥ 85 then "A"
  else if p ≥ 80 then "A-"
  else if p ≥ 75 then "B+"
  else if p ≥ 70 then "B"
  else if p ≥ 65 then "B-"
  else if p ≥ 60 then "C+"
  else if p ≥ 55 then "C"
  else if p ≥ 50 then "C-"
  else if p ≥ 45 then "D"
  else "F"

/-- Schema validation run by Mongoose on `save()` for a `Grade`:
`marks ≥ 0`, `grade` is required (at most 2 characters), `remarks` at
most 200 characters.  The required references (`exam`, `student`,
`gradedBy`) are always present in this model. -/
def gradeValidate (g : GradeDoc) : Bool :=
  (0 ≤ g.marks) &&
  (match g.grade with
   | some s => s ≠ "" && s.length ≤ 2
   | none => false) &&
  (match g.remarks with
   | some s => s.length ≤ 200
   | none => true)

/-- The `gradeSchema.pre('save')` middleware.  Inside a document
middleware `this.constructor` is the model the document belongs to,
i.e. the **Grade** model, so `this.constructor.findById(this.exam)`
queries the grades collection for a document whose `_id` equals the
exam id — not the exams collection.  When no grade document carries
that id the callback receives `null` and the letter is never assigned.
If some grade document did carry that id, it has no `maxMarks` field,
so `this.marks / exam.maxMarks` is `NaN` in JS, every `>=` test is
false, and the letter assigned is `"F"`. -/
def gradePreSaveHook (grades : List GradeDoc) (g : GradeDoc) : GradeDoc :=
  match grades.find? (fun d => d.id = g.exam) with
  | some _ => { g with grade := some "F" }
  | none => g

/-- Embeds `document.save()` persistence for a `Grade` document. -/
def saveGradeDoc (grades : List GradeDoc) (g : GradeDoc) : List GradeDoc :=
  if grades.any (fun d => d.id = g.id) then
    grades.map (fun d => if d.id = g.id then g else d)
  else
    grades ++ [g]

/-- Embeds `grade.save()`: Mongoose runs schema validation before any
user-defined `pre('save')` hook (all `validate` hooks complete before
`pre('save')` hooks run), so the required-`grade` check precedes the
letter-computing middleware; changes a hook makes are not re-validated. -/
def gradeSave (grades : List GradeDoc) (g : GradeDoc) :
    Except Err (GradeDoc × List GradeDoc) :=
  if gradeValidate g then
    let g2 := gradePreSaveHook grades g
    .ok (g2, saveGradeDoc grades g2)
  else
    .error ⟨"Grade validation failed", 400⟩

/-! ## Announcement documents (`announcement.model.ts`) -/

/-- A persisted `Announcement` document. -/
structure AnnouncementDoc where
  id : Nat
  title : String
  body : String
  audience : String
  targets : List Nat := []
  targetModel : Option String := none
  createdBy : Nat
  priority : String := "MEDIUM"
  status : String := "DRAFT"
  publishedAt : Option Nat := none
  expiresAt : Option Nat := none
deriving Repr, DecidableEq

/-- Embeds `Announcement.findById`. -/
def findAnnouncement (anns : List AnnouncementDoc) (id : Nat) :
    Option AnnouncementDoc :=
  anns.find? (fun a => a.id = id)

/-- Schema validation run by Mongoose on `save()` for an
`Announcement`: required/maxlength on title and body, the enums, and
`targetModel` required exactly when `audience ≠ 'ALL'`. -/
def announcementValidate (a : AnnouncementDoc) : Bool :=
  a.title ≠ "" && a.title.length ≤ 200 &&
  a.body ≠ "" && a.body.length ≤ 2000 &&
  (a.audience = "ALL" || a.audience = "CLASS" || a.audience = "ROLE" ||
   a.audience = "USER") &&
  (a.priority = "LOW" || a.priority = "MEDIUM" || a.priority = "HIGH" ||
   a.priority = "URGENT") &&
  (a.status = "DRAFT" || a.status = "PUBLISHED" || a.status = "ARCHIVED") &&
  (a.audience = "ALL" ||
   (match a.targetModel with
    | some m => m = "User" || m = "Class"
    | none => false))

/-- The `announcementSchema.pre('save')` middleware: when the `status`
path is modified, the new status is `'PUBLISHED'`, and `publishedAt` is
not already set (a `Date` is always truthy in JS, so `!this.publishedAt`
means the field is absent), it stamps `publishedAt` with the current
time. -/
def announcementPreSaveHook (statusModified : Bool) (now : Nat)
    (a : AnnouncementDoc) : AnnouncementDoc :=
  if statusModified && a.status = "PUBLISHED" && a.publishedAt = none then
    { a with publishedAt := some now }
  else
    a

/-- Embeds `document.save()` persistence for an `Announcement` document. -/
def saveAnnouncementDoc (anns : List AnnouncementDoc) (a : AnnouncementDoc) :
    List AnnouncementDoc :=
  if anns.any (fun d => d.id = a.id) then
    anns.map (fun d => if d.id = a.id then a else d)
  else
    anns ++ [a]

/-- Embeds `announcement.save()`: validation, then the publishedAt-stamping
pre-save hook, then persistence. -/
def announcementSave (statusModified : Bool) (now : Nat)
    (anns : List AnnouncementDoc) (a : AnnouncementDoc) :
    Except Err (AnnouncementDoc × List AnnouncementDoc) :=
  if announcementValidate a then
    let a2 := announcementPreSaveHook statusModified now a
    .ok (a2, saveAnnouncementDoc anns a2)
  else
    .error ⟨"Announcement validation failed", 400⟩

/-! ## The database -/

/-- The whole persisted state: one list per MongoDB collection. -/
structure DB where
  users : List UserDoc := []
  classes : List ClassDoc := []
  exams : List ExamDoc := []
  grades : List GradeDoc := []
  announcements : List AnnouncementDoc := []
deriving Repr, DecidableEq

/-! ## Access Control Guard (`middleware/rbac.ts`) -/

/-- The `{ userId, email, role }` payload `authenticate` attaches to
`req.user`. -/
structure AuthUser where
  userId : Nat
  email : String
  role : String
deriving Repr, DecidableEq

/-- The body of the closure `requireRoles(...roles)` returns, i.e. the
check logic as written inside it: throw 401 when `req.user` is absent,
throw 403 when the authenticated role is not in the declared list,
otherwise fall through to the `next()` call (`.ok ()` here marks
reaching that call).  This body is what the author intended the guard
to do; in the deployed program it is unreachable on a normal request
(see `handleRequest`), and were the closure ever invoked in the normal
3-argument way, its `next` — the *fourth* parameter — would be
`undefined`, so the fall-through would itself throw. -/
def requireRolesBody (roles : List String) (user : Option AuthUser) :
    Except Err Unit :=
  match user with
  | none => .error ⟨"Authentication required", 401⟩
  | some u =>
      if roles.contains u.role then .ok ()
      else .error ⟨"Insufficient permissions", 403⟩

/-- An Express middleware layer as dispatch sees it: the declared
parameter count of the registered function (JS `fn.length`) and the
check logic its body would run. -/
structure ExpressLayer where
  arity : Nat
  run : Option AuthUser → Except Err Unit

/-- Embeds Express route dispatch for one layer on a normal request
(`Layer.handle_request`): a function whose declared arity exceeds 3 is
treated as error-handling middleware and is *skipped* — `next()` is
called without invoking it, here `.ok ()` — so the request proceeds to
the next layer; only a 3-or-fewer-parameter function actually runs. -/
def handleRequest (layer : ExpressLayer) (user : Option AuthUser) :
    Except Err Unit :=
  if layer.arity > 3 then .ok ()
  else layer.run user

/-- Embeds `requireRoles(...roles)` as deployed: the returned closure
is declared `(req: AuthRequest, res, Response, next)` — the source
mistypes `res: Response` with a comma, turning the type `Response` into
a third value parameter — so the function's declared arity is 4. -/
def requireRoles (roles : List String) : ExpressLayer :=
  { arity := 4, run := requireRolesBody roles }

/-- Embeds `requireAdmin = requireRoles('ADMIN')`. -/
def requireAdmin : ExpressLayer :=
  requireRoles ["ADMIN"]

/-- Embeds `requireTeacher = requireRoles('TEACHER', 'ADMIN')`. -/
def requireTeacher : ExpressLayer :=
  requireRoles ["TEACHER", "ADMIN"]

/-- Embeds `requireStudent = requireRoles('STUDENT', 'ADMIN')`. -/
def requireStudent : ExpressLayer :=
  requireRoles ["STUDENT", "ADMIN"]

/-- Embeds `requireParent = requireRoles('PARENT', 'ADMIN')`. -/
def requireParent : ExpressLayer :=
  requireRoles ["PARENT", "ADMIN"]

/-! ## Auth Service (`auth.service.ts`)

Password hashing/verification is the bcrypt collaborator
(`utils/password`), passed in as opaque functions `hashPw` and
`checkPw`; the token utilities (`utils/jwt`) carry the
`{ userId, email, role }` payload, modelled by `AuthUser`. -/

/-- Embeds `UserService.updateLastLogin`:
`User.findByIdAndUpdate(id, { lastLogin: new Date() })`. -/
def updateLastLogin (users : List UserDoc) (id : Nat) (now : Nat) :
    List UserDoc :=
  users.map (fun u => if u.id = id then { u with lastLogin := some now } else u)

/-- Embeds `AuthService.login`: find by email or 401, reject non-ACTIVE status
with 401, verify the password or 401, then issue the token pair (whose
payload is returned) and update `lastLogin`. -/
def login (db : DB) (checkPw : String → String → Bool) (now : Nat)
    (email password : String) : Except Err (AuthUser × DB) :=
  match getUserByEmail db.users email with
  | none => .error ⟨"Invalid email or password", 401⟩
  | some user =>
      if user.status ≠ "ACTIVE" then
        .error ⟨"Account is not active", 401⟩
      else if !(checkPw password user.passwordHash) then
        .error ⟨"Invalid email or password", 401⟩
      else
        .ok (⟨user.id, user.email, user.role⟩,
             { db with users := updateLastLogin db.users user.id now })

/-- Embeds `UserService.updateUserPassword`: hash the new password and
`User.findByIdAndUpdate(id, { passwordHash })`. -/
def updateUserPassword (hashPw : String → String) (users : List UserDoc)
    (id : Nat) (newPassword : String) : List UserDoc :=
  users.map (fun u =>
    if u.id = id then { u with passwordHash := hashPw newPassword } else u)

/-- The second update of `AuthService.resetPassword`:
`User.findByIdAndUpdate(user._id, { resetPasswordToken: undefined,
resetPasswordExpires: undefined })`.  Mongoose (v6 and later, as used
with this Node 20 stack) strips keys whose value is `undefined` from an
update document before sending it — the former `omitUndefined`
behaviour is now unconditional — so the update document is empty and
every user document, the matched one included, is left unchanged: the
reset-token fields are not cleared. -/
def clearResetTokenUpdate (users : List UserDoc) (_id : Nat) :
    List UserDoc :=
  users

/-- Embeds `AuthService.resetPassword`: find a user whose stored reset token
equals `token` with `resetPasswordExpires` strictly after `now`
(a document without an expiry value never matches `$gt`); if none,
fail with 400; otherwise replace the password hash, then run the
(empty, see `clearResetTokenUpdate`) token-clearing update. -/
def resetPassword (db : DB) (hashPw : String → String) (now : Nat)
    (token newPassword : String) : Except Err DB :=
  match db.users.find? (fun u =>
      u.resetPasswordToken = some token &&
      (match u.resetPasswordExpires with
       | some e => decide (now < e)
       | none => false)) with
  | none => .error ⟨"Invalid or expired reset token", 400⟩
  | some user =>
      let users1 := updateUserPassword hashPw db.users user.id newPassword
      let users2 := clearResetTokenUpdate users1 user.id
      .ok { db with users := users2 }

/-! ## Class Service (`class.service.ts`) -/

/-- JS `x || dflt` for an optional number field (`0` is falsy). -/
def jsOrNat (o : Option Nat) (dflt : Nat) : Nat :=
  match o with
  | some n => if n = 0 then dflt else n
  | none => dflt

/-- JS `x || dflt` for an optional string field (`''` is falsy). -/
def jsOrStr (o : Option String) (dflt : String) : String :=
  match o with
  | some s => if s = "" then dflt else s
  | none => dflt

/-- JS truthiness of an optional string (absent or `''` is falsy). -/
def jsTruthyStrOpt (o : Option String) : Bool :=
  match o with
  | some s => s ≠ ""
  | none => false

/-- JS truthiness of an optional number (absent or `0` is falsy). -/
def jsTruthyNatOpt (o : Option Nat) : Bool :=
  match o with
  | some n => n ≠ 0
  | none => false

/-- The request body of `POST /classes`. -/
structure CreateClassData where
  name : String
  sectionName : String
  year : Nat
  classTeacher : Nat
  capacity : Option Nat := none
  status : Option String := none
deriving Repr, DecidableEq

/-- Embeds `ClassService.createClass`: uniqueness pre-query on
(name, section, year), teacher existence and role checks, then
`new Class({...})` with `capacity: capacity || 30` and
`status: status || 'ACTIVE'`, and `save()`. -/
def createClass (db : DB) (newId : Nat) (d : CreateClassData) :
    Except Err (ClassDoc × DB) :=
  if (db.classes.find? (fun c =>
      c.name = d.name ∧ c.sectionName = d.sectionName ∧ c.year = d.year)).isSome then
    .error ⟨"Class with this name, section, and year already exists", 400⟩
  else
    match findUser db.users d.classTeacher with
    | none => .error ⟨"Class teacher not found", 404⟩
    | some teacher =>
        if teacher.role ≠ "TEACHER" then
          .error ⟨"Class teacher must have TEACHER role", 400⟩
        else
          let newClass : ClassDoc :=
            { id := newId, name := d.name, sectionName := d.sectionName,
              year := d.year, classTeacher := d.classTeacher,
              capacity := jsOrNat d.capacity 30,
              status := jsOrStr d.status "ACTIVE" }
          if classValidate newClass then
            .ok (newClass, { db with classes := saveClassDoc db.classes newClass })
          else
            .error ⟨"Class validation failed", 400⟩

/-- The `Partial<IClass>` update body of `PATCH /classes/:id` (the
fields the route accepts: name, section, year, classTeacher, capacity,
status); `none` means the key is absent from the body. -/
structure ClassUpdate where
  name : Option String := none
  sectionName : Option String := none
  year : Option Nat := none
  classTeacher : Option Nat := none
  capacity : Option Nat := none
  status : Option String := none
deriving Repr, DecidableEq

/-- Embeds `Object.assign(classData, updateData)`: every key present in the
update overwrites the document's field. -/
def applyClassUpdate (upd : ClassUpdate) (c : ClassDoc) : ClassDoc :=
  { c with
    name := upd.name.getD c.name,
    sectionName := upd.sectionName.getD c.sectionName,
    year := upd.year.getD c.year,
    classTeacher := upd.classTeacher.getD c.classTeacher,
    capacity := upd.capacity.getD c.capacity,
    status := upd.status.getD c.status }

/-- The tail of `ClassService.updateClass`: `Object.assign` then
`classData.save()` (which runs schema validation). -/
def saveUpdatedClass (db : DB) (classData : ClassDoc) (upd : ClassUpdate) :
    Except Err (ClassDoc × DB) :=
  let c2 := applyClassUpdate upd classData
  if classValidate c2 then
    .ok (c2, { db with classes := saveClassDoc db.classes c2 })
  else
    .error ⟨"Class validation failed", 400⟩

/-- Embeds `ClassService.updateClass`: find or 404; when name, section and
year are all (truthily) supplied, re-run the uniqueness pre-query
excluding this `_id`; when a classTeacher is supplied, check it
resolves to a TEACHER; then assign and save.  No check relates the
updated `capacity` to the current `students` length. -/
def updateClass (db : DB) (id : Nat) (upd : ClassUpdate) :
    Except Err (ClassDoc × DB) :=
  match findClass db.classes id with
  | none => .error ⟨"Class not found", 404⟩
  | some classData =>
      if jsTruthyStrOpt upd.name && jsTruthyStrOpt upd.sectionName &&
          jsTruthyNatOpt upd.year &&
          (db.classes.find? (fun c =>
            some c.name = upd.name ∧ some c.sectionName = upd.sectionName ∧
            some c.year = upd.year ∧ c.id ≠ id)).isSome then
        .error ⟨"Class with this name, section, and year already exists", 400⟩
      else
        match upd.classTeacher with
        | some tid =>
            (match findUser db.users tid with
             | none => .error ⟨"Class teacher not found", 404⟩
             | some t =>
                 if t.role ≠ "TEACHER" then
                   .error ⟨"Class teacher must have TEACHER role", 400⟩
                 else saveUpdatedClass db classData upd)
        | none => saveUpdatedClass db classData upd

/-- Embeds `ClassService.getClassById` (population of references does not
change the document itself). -/
def getClassById (db : DB) (id : Nat) : Except Err ClassDoc :=
  match findClass db.classes id with
  | none => .error ⟨"Class not found", 404⟩
  | some c => .ok c

/-- Embeds `User.findByIdAndUpdate(studentId, { 'meta.class': classId })`. -/
def setUserMetaClass (users : List UserDoc) (sid cid : Nat) : List UserDoc :=
  users.map (fun u => if u.id = sid then { u with metaClass := some cid } else u)

/-- Embeds `User.findByIdAndUpdate(studentId, { $unset: { 'meta.class': 1 } })`. -/
def unsetUserMetaClass (users : List UserDoc) (sid : Nat) : List UserDoc :=
  users.map (fun u => if u.id = sid then { u with metaClass := none } else u)

/-- Embeds `ClassService.addStudentToClass`: find class or 404; find student
or 404; role must be STUDENT; reject if already in the member list;
reject if `students.length >= capacity`; push, save, update the
student's `meta.class`, and return `getClassById`. -/
def addStudentToClass (db : DB) (classId studentId : Nat) :
    Except Err (ClassDoc × DB) :=
  match findClass db.classes classId with
  | none => .error ⟨"Class not found", 404⟩
  | some classData =>
      match findUser db.users studentId with
      | none => .error ⟨"Student not found", 404⟩
      | some student =>
          if student.role ≠ "STUDENT" then
            .error ⟨"User must have STUDENT role", 400⟩
          else if classData.students.contains studentId then
            .error ⟨"Student is already enrolled in this class", 400⟩
          else if classData.students.length ≥ classData.capacity then
            .error ⟨"Class is at maximum capacity", 400⟩
          else
            let c2 := { classData with
                        students := classData.students ++ [studentId] }
            if classValidate c2 then
              let db2 := { db with
                           classes := saveClassDoc db.classes c2,
                           users := setUserMetaClass db.users studentId classId }
              match getClassById db2 classId with
              | .ok c3 => .ok (c3, db2)
              | .error e => .error e
            else
              .error ⟨"Class validation failed", 400⟩

/-- Embeds `ClassService.removeStudentFromClass`: find class or 404; filter
the student id out of the member list (no error if absent); save;
`$unset` the student's `meta.class`; return `getClassById`. -/
def removeStudentFromClass (db : DB) (classId studentId : Nat) :
    Except Err (ClassDoc × DB) :=
  match findClass db.classes classId with
  | none => .error ⟨"Class not found", 404⟩
  | some classData =>
      let c2 := { classData with
                  students := classData.students.filter (fun sid => sid ≠ studentId) }
      if classValidate c2 then
        let db2 := { db with
                     classes := saveClassDoc db.classes c2,
                     users := unsetUserMetaClass db.users studentId }
        match getClassById db2 classId with
        | .ok c3 => .ok (c3, db2)
        | .error e => .error e
      else
        .error ⟨"Class validation failed", 400⟩

/-! ## Exams Service (`exams.service.ts`) -/

/-- The request body of `POST /grades` (with `gradedBy` injected from
the authenticated user by the controller). -/
structure CreateGradeData where
  exam : Nat
  student : Nat
  marks : Rat
  remarks : Option String := none
  gradedBy : Nat
deriving Repr, DecidableEq

/-- Embeds `ExamsService.createGrade`: duplicate pre-query on
(exam, student); exam existence; student existence and STUDENT role;
`marks > exam.maxMarks` bound; `gradedBy` existence; then
`new Grade({ exam, student, marks, remarks, gradedBy })` — note the
`grade` letter field is not supplied — and `save()`. -/
def createGrade (db : DB) (newId : Nat) (gd : CreateGradeData) :
    Except Err (GradeDoc × DB) :=
  if (db.grades.find? (fun g =>
      g.exam = gd.exam ∧ g.student = gd.student)).isSome then
    .error ⟨"Grade already exists for this student in this exam", 400⟩
  else
    match findExam db.exams gd.exam with
    | none => .error ⟨"Exam not found", 404⟩
    | some examData =>
        match findUser db.users gd.student with
        | none => .error ⟨"Student not found", 404⟩
        | some studentData =>
            if studentData.role ≠ "STUDENT" then
              .error ⟨"User must have STUDENT role", 400⟩
            else if gd.marks > examData.maxMarks then
              .error ⟨"Marks cannot exceed maximum marks for this exam", 400⟩
            else
              match findUser db.users gd.gradedBy with
              | none => .error ⟨"User not found", 404⟩
              | some _ =>
                  let newGrade : GradeDoc :=
                    { id := newId, exam := gd.exam, student := gd.student,
                      marks := gd.marks, remarks := gd.remarks,
                      gradedBy := gd.gradedBy }
                  match gradeSave db.grades newGrade with
                  | .error e => .error e
                  | .ok (g2, grades2) =>
                      .ok (g2, { db with grades := grades2 })

/-- Embeds `ExamsService.deleteExam`: find or 404, then
`Grade.deleteMany({ exam: id })` followed by
`Exam.findByIdAndDelete(id)` (`_id` is unique, so removal by filter
deletes exactly that exam). -/
def deleteExam (db : DB) (id : Nat) : Except Err DB :=
  match findExam db.exams id with
  | none => .error ⟨"Exam not found", 404⟩
  | some _ =>
      .ok { db with
            grades := db.grades.filter (fun g => g.exam ≠ id),
            exams := db.exams.filter (fun e => e.id ≠ id) }

/-! ## Announcement Service (`announcement.service.ts`) -/

/-- Embeds `AnnouncementService.publishAnnouncement`: find or 404; only an
ADMIN or the creator may publish (403 otherwise); then the service
assigns `status = 'PUBLISHED'` **and** `publishedAt = new Date()`
unconditionally, and saves.  `statusModified` passed to the save
pipeline reflects that Mongoose marks a path modified only when the
assigned value differs from the stored one. -/
def publishAnnouncement (db : DB) (id : Nat) (userRole : Option String)
    (userId : Option Nat) (now : Nat) :
    Except Err (AnnouncementDoc × DB) :=
  match findAnnouncement db.announcements id with
  | none => .error ⟨"Announcement not found", 404⟩
  | some ann =>
      if userRole ≠ some "ADMIN" ∧ some ann.createdBy ≠ userId then
        .error ⟨"You can only publish your own announcements", 403⟩
      else
        match announcementSave (decide (ann.status ≠ "PUBLISHED")) now
            db.announcements
            { ann with status := "PUBLISHED", publishedAt := some now } with
        | .error e => .error e
        | .ok (a3, anns2) =>
            .ok (a3, { db with announcements := anns2 })

/-! ## The class-capacity invariant (spec §3, `Class`) -/

/-- The spec's Class invariant: student-list length at most capacity. -/
def classInvariant (c : ClassDoc) : Bool :=
  c.students.length ≤ c.capacity

/-- The Class invariant over the whole database. -/
def dbClassInv (db : DB) : Bool :=
  db.classes.all classInvariant

/-! ## Concrete sample data (for witnesses and counterexamples) -/

/-- A demonstration hash function standing in for bcrypt. -/
def hashDemo (s : String) : String :=
  String.append "H:" s

def uAdmin : UserDoc :=
  { id := 1, email := "admin@school.io", passwordHash := "ph1",
    firstName := "Ada", lastName := "Min", role := "ADMIN", status := "ACTIVE" }

def uTeacher : UserDoc :=
  { id := 2, email := "teacher@school.io", passwordHash := "ph2",
    firstName := "Tea", lastName := "Cher", role := "TEACHER", status := "ACTIVE" }

def uStudentA : UserDoc :=
  { id := 3, email := "alice@school.io", passwordHash := "ph3",
    firstName := "Ali", lastName := "Ce", role := "STUDENT", status := "ACTIVE" }

def uStudentB : UserDoc :=
  { id := 4, email := "bob@school.io", passwordHash := "ph4",
    firstName := "Bo", lastName := "B", role := "STUDENT", status := "ACTIVE" }

def uStudentC : UserDoc :=
  { id := 5, email := "carol@school.io", passwordHash := "ph5",
    firstName := "Ca", lastName := "Rol", role := "STUDENT", status := "ACTIVE" }

def uSuspended : UserDoc :=
  { id := 6, email := "sus@school.io", passwordHash := "ph6",
    firstName := "Su", lastName := "S", role := "STUDENT", status := "SUSPENDED" }

def uReset : UserDoc :=
  { id := 7, email := "reset@school.io", passwordHash := "oldhash",
    firstName := "Re", lastName := "Set", role := "STUDENT", status := "ACTIVE",
    resetPasswordToken := some "tok123", resetPasswordExpires := some 1000 }

/-- A class holding 2 of 2 students (at capacity). -/
def clsTwo : ClassDoc :=
  { id := 10, name := "Grade 5", sectionName := "A", year := 2024,
    classTeacher := 2, students := [3, 4], capacity := 2 }

/-- A class holding 1 of 2 students (one seat free). -/
def clsOpen : ClassDoc :=
  { id := 11, name := "Grade 6", sectionName := "B", year := 2024,
    classTeacher := 2, students := [3], capacity := 2 }

def examMid : ExamDoc :=
  { id := 100, name := "Midterm", classId := 10, subject := 200, date := 500,
    maxMarks := 100, duration := 60, examType := "MIDTERM", createdBy := 2 }

def examOther : ExamDoc :=
  { id := 101, name := "Quiz", classId := 11, subject := 201, date := 600,
    maxMarks := 20, duration := 20, examType := "QUIZ", createdBy := 2 }

/-- An existing grade for (exam 100, student 3). -/
def gradeExisting : GradeDoc :=
  { id := 300, exam := 100, student := 3, marks := 40, grade := some "F",
    gradedBy := 2 }

/-- A grade attached to the other exam. -/
def gradeOther : GradeDoc :=
  { id := 301, exam := 101, student := 3, marks := 10, grade := some "C-",
    gradedBy := 2 }

/-- An already-published announcement with `publishedAt = 100`. -/
def annPub : AnnouncementDoc :=
  { id := 400, title := "Holiday", body := "School closed", audience := "ALL",
    createdBy := 1, status := "PUBLISHED", publishedAt := some 100 }

/-- The sample database used by the concrete theorems. -/
def dbMain : DB :=
  { users := [uAdmin, uTeacher, uStudentA, uStudentB, uStudentC, uSuspended, uReset],
    classes := [clsTwo, clsOpen],
    exams := [examMid, examOther],
    grades := [gradeExisting, gradeOther],
    announcements := [annPub] }

/-- Sample `clsTwo` after `updateClass` lowers its capacity to 1. -/
def clsTwoCap1 : ClassDoc := { clsTwo with capacity := 1 }

/-- Sample `dbMain` after the capacity-lowering update. -/
def dbAfterCapacityUpdate : DB :=
  { dbMain with classes := [clsTwoCap1, clsOpen] }

/-- The user list of `dbMain` after a successful password reset with new
password hash `h`: only the password hash changed — the reset-token
fields survive. -/
def usersAfterReset (h : String) : List UserDoc :=
  [uAdmin, uTeacher, uStudentA, uStudentB, uStudentC, uSuspended,
   { uReset with passwordHash := h }]

/-- Sample `dbMain` after a successful password reset. -/
def dbAfterReset (h : String) : DB :=
  { dbMain with users := usersAfterReset h }

/-- Sample `annPub` republished at time 555. -/
def annRepub : AnnouncementDoc := { annPub with publishedAt := some 555 }

/-- Sample `dbMain` after republishing `annPub` at time 555. -/
def dbAfterRepublish : DB := { dbMain with announcements := [annRepub] }

/-! ## Helper lemmas -/

theorem find?_map_if {α : Type} (p : α → Bool) (b : α) (hb : p b = true) :
    ∀ (l : List α), l.any p = true →
      (l.map (fun x => if p x then b else x)).find? p = some b := by
  intro l
  induction l with
  | nil => simp
  | cons x xs ih =>
      intro hany
      by_cases hx : p x = true
      · simp [hx, List.find?, hb]
      · have hx2 : p x = false := by
          cases hpx : p x
          · rfl
          · exact absurd hpx hx
        simp only [List.any_cons, hx2, Bool.false_or] at hany
        simp [List.find?, hx2, ih hany]

theorem any_map_if {α : Type} (p : α → Bool) (b : α) (hb : p b = true)
    (l : List α) (h : l.any p = true) :
    (l.map (fun x => if p x then b else x)).any p = true := by
  have h2 := find?_map_if p b hb l h
  have h3 := List.find?_isSome.mp (by rw [h2]; rfl)
  obtain ⟨a, ha, hpa⟩ := h3
  exact List.any_eq_true.mpr ⟨a, ha, hpa⟩

theorem map_if_idem {α : Type} (p : α → Bool) (b : α) (hb : p b = true)
    (l : List α) :
    ((l.map (fun x => if p x then b else x)).map
        (fun x => if p x then b else x)) =
      l.map (fun x => if p x then b else x) := by
  rw [List.map_map]
  apply List.map_congr_left
  intro a _
  by_cases ha : p a = true
  · simp [ha, hb]
  · simp [Function.comp, ha]

theorem all_save {α : Type} (P : α → Bool) (idOf : α → Nat)
    (l : List α) (c : α) (hl : l.all P = true) (hc : P c = true) :
    (if l.any (fun d => idOf d = idOf c) then
        l.map (fun d => if idOf d = idOf c then c else d)
      else l ++ [c]).all P = true := by
  by_cases hany : l.any (fun d => idOf d = idOf c) = true
  · simp only [hany, if_true]
    rw [List.all_eq_true] at hl ⊢
    intro x hx
    obtain ⟨a, ha, hax⟩ := List.mem_map.mp hx
    by_cases hpa : idOf a = idOf c
    · rw [if_pos hpa] at hax
      rw [← hax]; exact hc
    · rw [if_neg hpa] at hax
      rw [← hax]; exact hl a ha
  · have hf : l.any (fun d => idOf d = idOf c) = false := by
      cases h : l.any (fun d => idOf d = idOf c)
      · rfl
      · exact absurd h hany
    simp only [hf, Bool.false_eq_true, if_false, List.all_append]
    simp [hl, hc]

theorem find?_replace_nat {α : Type} (idOf : α → Nat) (i : Nat) (b : α)
    (hb : idOf b = i) :
    ∀ (l : List α), (l.any (fun d => idOf d = i)) = true →
      (l.map (fun x => if idOf x = i then b else x)).find?
          (fun x => idOf x = i) = some b := by
  intro l
  induction l with
  | nil => simp
  | cons x xs ih =>
      intro h
      by_cases hx : idOf x = i
      · simp [List.find?, hx, hb]
      · simp only [List.any_cons, decide_eq_true_eq, hx, decide_False,
          Bool.false_or] at h
        simp [List.find?, hx, ih h]

theorem any_replace_nat {α : Type} (idOf : α → Nat) (i : Nat) (b : α)
    (hb : idOf b = i) (l : List α) (h : (l.any (fun d => idOf d = i)) = true) :
    ((l.map (fun x => if idOf x = i then b else x)).any
        (fun d => idOf d = i)) = true := by
  have h2 := find?_replace_nat idOf i b hb l h
  have h3 := List.find?_isSome.mp (by rw [h2]; rfl)
  obtain ⟨a, ha, hpa⟩ := h3
  exact List.any_eq_true.mpr ⟨a, ha, hpa⟩

theorem map_replace_idem_nat {α : Type} (idOf : α → Nat) (i : Nat) (b : α)
    (hb : idOf b = i) (l : List α) :
    ((l.map (fun x => if idOf x = i then b else x)).map
        (fun x => if idOf x = i then b else x)) =
      l.map (fun x => if idOf x = i then b else x) := by
  rw [List.map_map]
  apply List.map_congr_left
  intro a _
  by_cases ha : idOf a = i
  · simp [Function.comp, ha, hb]
  · simp [Function.comp, ha]

theorem unsetUserMetaClass_idem (users : List UserDoc) (sid : Nat) :
    unsetUserMetaClass (unsetUserMetaClass users sid) sid =
      unsetUserMetaClass users sid := by
  unfold unsetUserMetaClass
  rw [List.map_map]
  apply List.map_congr_left
  intro u _
  by_cases h : u.id = sid <;> simp [Function.comp, h]

/-- Re-finding a class after `saveClassDoc` replaced it: if some class
with id `i` was present and the saved document carries id `i`, the
lookup now returns the saved document. -/
theorem findClass_save_found (classes : List ClassDoc) (i : Nat)
    (c2 : ClassDoc) (hid : c2.id = i)
    (hfound : (classes.any (fun d => d.id = i)) = true) :
    findClass (saveClassDoc classes c2) i = some c2 := by
  unfold findClass saveClassDoc
  simp only [hid, hfound, if_true]
  exact find?_replace_nat ClassDoc.id i c2 hid classes hfound

/-- A `find?` hit yields `any = true` for the same predicate. -/
theorem any_of_find?_some {α : Type} (p : α → Bool) (l : List α) (a : α)
    (h : l.find? p = some a) : l.any p = true :=
  List.any_eq_true.mpr
    ⟨a, List.mem_of_find?_eq_some h, List.find?_some h⟩

/-- Saving the same class document twice changes nothing the second
time. -/
theorem saveClassDoc_idem (classes : List ClassDoc) (c2 : ClassDoc)
    (hfound : (classes.any (fun d => d.id = c2.id)) = true) :
    saveClassDoc (saveClassDoc classes c2) c2 = saveClassDoc classes c2 := by
  unfold saveClassDoc
  simp only [hfound, if_true]
  have hany2 := any_replace_nat ClassDoc.id c2.id c2 rfl classes hfound
  simp only [hany2, if_true]
  exact map_replace_idem_nat ClassDoc.id c2.id c2 rfl classes

/-- Every `createGrade` call fails: the required `grade` letter field is
never supplied by the service and Mongoose validates required fields
before the pre-save hook that was meant to compute it ever runs (and
that hook queries the wrong collection anyway). -/
theorem createGrade_isOk_false (db : DB) (newId : Nat) (gd : CreateGradeData) :
    exceptIsOk (createGrade db newId gd) = false := by
  unfold createGrade
  split
  · rfl
  · split
    · rfl
    · split
      · rfl
      · split
        · rfl
        · split
          · rfl
          · split
            · rfl
            · simp [gradeSave, gradeValidate, exceptIsOk]

/-! ## C7: the role guard is never enforced -/

/-- C7: the deployed guard enforces nothing.  The closure `requireRoles`
returns is declared with four parameters (`req, res, Response, next` —
`res: Response` mistyped with a comma), so Express treats it as
error-handling middleware and skips it on every normal request: no 401
is produced for an unauthenticated request and no 403 for an
insufficient role — a STUDENT passes `requireAdmin`, an anonymous
request passes every guard.  The closure *body*, had it been reachable,
implements exactly the claimed logic (401 without identity, 403 outside
the list, fall-through on membership, ADMIN in every constructed list),
which is why the claim states the intent and the extra comma is the
slip. -/
theorem requireRoles_guard_skipped :
    (∀ (roles : List String) (user : Option AuthUser),
      handleRequest (requireRoles roles) user = .ok ())
    ∧ (requireRoles ["ADMIN"]).arity = 4
    ∧ handleRequest requireAdmin (some ⟨3, "alice@school.io", "STUDENT"⟩)
        = .ok ()
    ∧ handleRequest requireAdmin none = .ok ()
    ∧ handleRequest requireTeacher none = .ok ()
    ∧ requireRolesBody ["ADMIN"] (some ⟨3, "alice@school.io", "STUDENT"⟩)
        = .error ⟨"Insufficient permissions", 403⟩
    ∧ requireRolesBody ["ADMIN"] none = .error ⟨"Authentication required", 401⟩
    ∧ requireRolesBody ["TEACHER", "ADMIN"] (some ⟨1, "admin@school.io", "ADMIN"⟩)
        = .ok ()
    ∧ requireRolesBody ["TEACHER", "ADMIN"] (some ⟨2, "teacher@school.io", "TEACHER"⟩)
        = .ok ()
    ∧ (["ADMIN"].contains "ADMIN" && ["TEACHER", "ADMIN"].contains "ADMIN"
        && ["STUDENT", "ADMIN"].contains "ADMIN"
        && ["PARENT", "ADMIN"].contains "ADMIN") = true :=
  ⟨fun _ _ => rfl, rfl, rfl, rfl, rfl, rfl, rfl, rfl, rfl, by decide⟩

/-! ## C9: exam deletion cascades to grades and nothing else -/

/-- C9: `deleteExam` deletes the exam together with exactly the grades
referencing it — every grade of another exam survives — and leaves the
users, classes, and announcements collections unchanged. -/
theorem deleteExam_cascade_frame (db : DB) (id : Nat) (e : ExamDoc)
    (he : findExam db.exams id = some e) :
    deleteExam db id =
      .ok { db with grades := db.grades.filter (fun g => g.exam ≠ id),
                    exams := db.exams.filter (fun x => x.id ≠ id) }
    ∧ (∀ g, g ∈ db.grades.filter (fun g => g.exam ≠ id) ↔
        (g ∈ db.grades ∧ g.exam ≠ id))
    ∧ (∀ x, x ∈ db.exams.filter (fun x => x.id ≠ id) ↔
        (x ∈ db.exams ∧ x.id ≠ id))
    ∧ ({ db with grades := db.grades.filter (fun g => g.exam ≠ id),
                 exams := db.exams.filter (fun x => x.id ≠ id) } : DB).users
        = db.users
    ∧ ({ db with grades := db.grades.filter (fun g => g.exam ≠ id),
                 exams := db.exams.filter (fun x => x.id ≠ id) } : DB).classes
        = db.classes
    ∧ ({ db with grades := db.grades.filter (fun g => g.exam ≠ id),
                 exams := db.exams.filter (fun x => x.id ≠ id) } : DB).announcements
        = db.announcements := by
  refine ⟨?_, ?_, ?_, rfl, rfl, rfl⟩
  · unfold deleteExam
    rw [he]
  · intro g
    simp [List.mem_filter]
  · intro x
    simp [List.mem_filter]

/-- C9 witness: deleting exam 100 from the sample database removes it
and its grade while the quiz and its grade survive. -/
theorem deleteExam_cascade_frame_witness :
    findExam dbMain.exams 100 = some examMid
    ∧ deleteExam dbMain 100 =
        .ok { dbMain with
              grades := dbMain.grades.filter (fun g => g.exam ≠ 100),
              exams := dbMain.exams.filter (fun x => x.id ≠ 100) } :=
  ⟨rfl, (deleteExam_cascade_frame dbMain 100 examMid rfl).1⟩

/-! ## C3: login error uniformity -/

/-- C3 counterexample: the status check precedes password verification,
so a stored SUSPENDED user queried with a non-matching password gets
"Account is not active" while an unknown email gets "Invalid email or
password" — different messages, though both 401. -/
theorem login_enumeration_counterexample :
    login dbMain (fun _ _ => false) 0 "ghost@school.io" "pw" =
      .error ⟨"Invalid email or password", 401⟩
    ∧ login dbMain (fun _ _ => false) 0 "sus@school.io" "pw" =
      .error ⟨"Account is not active", 401⟩
    ∧ (⟨"Account is not active", 401⟩ : Err) ≠
        ⟨"Invalid email or password", 401⟩ :=
  ⟨rfl, rfl, by decide⟩

/-- C3 amended: for an unknown email and for a stored ACTIVE user with
a non-matching password, `login` fails with the identical message and
the identical 401 status (the uniformity holds only for ACTIVE users:
for a non-ACTIVE stored user the status check fires first). -/
theorem login_uniform_invalid_for_active (db : DB)
    (checkPw : String → String → Bool) (now : Nat) (email password : String) :
    (getUserByEmail db.users email = none →
      login db checkPw now email password =
        .error ⟨"Invalid email or password", 401⟩)
    ∧ (∀ u, getUserByEmail db.users email = some u → u.status = "ACTIVE" →
        checkPw password u.passwordHash = false →
        login db checkPw now email password =
          .error ⟨"Invalid email or password", 401⟩) := by
  constructor
  · intro h
    unfold login
    rw [h]
  · intro u hu hact hpw
    unfold login
    rw [hu]
    simp [hact, hpw]

/-- C3 witness: the amended uniformity at concrete inputs. -/
theorem login_uniform_invalid_witness :
    getUserByEmail dbMain.users "ghost@school.io" = none
    ∧ login dbMain (fun _ _ => false) 0 "ghost@school.io" "pw" =
        .error ⟨"Invalid email or password", 401⟩
    ∧ getUserByEmail dbMain.users "alice@school.io" = some uStudentA
    ∧ login dbMain (fun _ _ => false) 0 "alice@school.io" "pw" =
        .error ⟨"Invalid email or password", 401⟩ :=
  ⟨rfl,
   (login_uniform_invalid_for_active dbMain (fun _ _ => false) 0
      "ghost@school.io" "pw").1 rfl,
   rfl,
   (login_uniform_invalid_for_active dbMain (fun _ _ => false) 0
      "alice@school.io" "pw").2 uStudentA rfl rfl rfl⟩

/-! ## C4: resetPassword leaves the reset token usable -/

/-- C4: evaluation at the failing input.  Resetting with a live token
succeeds and replaces the password hash, but the reset-token fields
survive — the token-clearing update passes `undefined` values that
Mongoose strips — so the very same token immediately resets the
password again; the expired-token half of the claim does hold. -/
theorem resetPassword_stale_token_bug :
    resetPassword dbMain hashDemo 500 "tok123" "newpw" =
      .ok (dbAfterReset "H:newpw")
    ∧ findUser (usersAfterReset "H:newpw") 7 =
        some { uReset with passwordHash := "H:newpw" }
    ∧ ({ uReset with passwordHash := "H:newpw" } : UserDoc).resetPasswordToken
        = some "tok123"
    ∧ ({ uReset with passwordHash := "H:newpw" } : UserDoc).resetPasswordExpires
        = some 1000
    ∧ resetPassword (dbAfterReset "H:newpw") hashDemo 500 "tok123" "again" =
        .ok (dbAfterReset "H:again")
    ∧ resetPassword dbMain hashDemo 2000 "tok123" "newpw" =
        .error ⟨"Invalid or expired reset token", 400⟩ :=
  ⟨rfl, rfl, rfl, rfl, rfl, rfl⟩

/-! ## C8: publishedAt on re-publish -/

/-- C8 counterexample: republishing an announcement that already has a
`publishedAt` changes it — `publishAnnouncement` assigns
`publishedAt = new Date()` unconditionally before saving. -/
theorem publish_overwrites_publishedAt :
    findAnnouncement dbMain.announcements 400 = some annPub
    ∧ annPub.publishedAt = some 100
    ∧ publishAnnouncement dbMain 400 (some "ADMIN") (some 1) 555 =
        .ok (annRepub, dbAfterRepublish)
    ∧ annRepub.publishedAt = some 555
    ∧ annRepub.publishedAt ≠ annPub.publishedAt :=
  ⟨rfl, rfl, rfl, rfl, by decide⟩

/-- C8 amended: the model's pre-save hook alone sets `publishedAt` only
on a first transition to PUBLISHED and preserves an existing value, but
the `publishAnnouncement` service operation overwrites `publishedAt`
with the time of every publish call, so re-publishing changes it. -/
theorem publishedAt_first_set_only_in_hook (a : AnnouncementDoc) (sm : Bool)
    (now : Nat) :
    (a.publishedAt ≠ none →
      (announcementPreSaveHook sm now a).publishedAt = a.publishedAt)
    ∧ (sm = true → a.status = "PUBLISHED" → a.publishedAt = none →
        (announcementPreSaveHook sm now a).publishedAt = some now)
    ∧ (∀ db id r uid a2 db2,
        publishAnnouncement db id r uid now = .ok (a2, db2) →
        a2.publishedAt = some now) := by
  refine ⟨?_, ?_, ?_⟩
  · intro h
    unfold announcementPreSaveHook
    by_cases hc : (sm && a.status = "PUBLISHED" && a.publishedAt = none) = true
    · exfalso
      simp only [Bool.and_eq_true, decide_eq_true_eq] at hc
      exact h hc.2
    · simp only [Bool.not_eq_true] at hc
      simp [hc]
  · intro h1 h2 h3
    unfold announcementPreSaveHook
    simp [h1, h2, h3]
  · intro db id r uid a2 db2 h
    unfold publishAnnouncement at h
    split at h
    · simp at h
    · split at h
      · simp at h
      · split at h
        · simp at h
        · rename_i heq
          unfold announcementSave at heq
          split at heq
          · simp only [Except.ok.injEq, Prod.mk.injEq] at heq h
            obtain ⟨h1, h2⟩ := h
            rw [← h1, ← heq.1]
            unfold announcementPreSaveHook
            simp
          · simp at heq

/-- C8 witness: the amended statement at concrete inputs — the hook
preserves `annPub`'s publishedAt, while the publish operation stamps the
new time. -/
theorem publishedAt_first_set_only_in_hook_witness :
    annPub.publishedAt ≠ none
    ∧ (announcementPreSaveHook true 555 annPub).publishedAt = annPub.publishedAt
    ∧ annRepub.publishedAt = some 555 :=
  ⟨by decide,
   (publishedAt_first_set_only_in_hook annPub true 555).1 (by decide),
   (publishedAt_first_set_only_in_hook annPub true 555).2.2 dbMain 400
     (some "ADMIN") (some 1) annRepub dbAfterRepublish rfl⟩

/-! ## C1: the stored letter grade -/

/-- C1: the letter-grade derivation never happens.  Mongoose validates
required fields before user pre-save hooks run, the service never
supplies the required `grade` field, and the hook itself queries the
Grade collection (`this.constructor`) instead of the Exam collection —
so `createGrade` never succeeds at all, and in particular marks 95 of
100 produces a validation error, not a stored "A+" (the breakpoint
table itself would give "A+" for 95% and "C-" for 52%). -/
theorem createGrade_never_stores_letter :
    (∀ (db : DB) (newId : Nat) (gd : CreateGradeData),
      exceptIsOk (createGrade db newId gd) = false)
    ∧ createGrade dbMain 999
        { exam := 100, student := 4, marks := 95, gradedBy := 1 } =
        .error ⟨"Grade validation failed", 400⟩
    ∧ letterOfPercentage (95 / 100 * 100) = "A+"
    ∧ letterOfPercentage (52 / 100 * 100) = "C-" :=
  ⟨createGrade_isOk_false, rfl,
   by norm_num [letterOfPercentage], by norm_num [letterOfPercentage]⟩

/-! ## C5: createGrade guards -/

/-- C5: `createGrade` with marks above the exam's maximum always fails
— an error result carries no updated database, so nothing is written —
and, once the checks preceding the bound (duplicate, exam, student,
role) pass, it fails with the marks-bound error specifically; a
pre-existing grade for the same (exam, student) pair always aborts with
the duplicate-grade error, the first check in the chain. -/
theorem createGrade_guards (db : DB) (newId : Nat) (gd : CreateGradeData) :
    (∀ e, findExam db.exams gd.exam = some e → gd.marks > e.maxMarks →
      exceptIsOk (createGrade db newId gd) = false)
    ∧ (∀ e st, findExam db.exams gd.exam = some e →
        findUser db.users gd.student = some st → st.role = "STUDENT" →
        db.grades.find? (fun g => g.exam = gd.exam ∧ g.student = gd.student)
          = none →
        gd.marks > e.maxMarks →
        createGrade db newId gd =
          .error ⟨"Marks cannot exceed maximum marks for this exam", 400⟩)
    ∧ (∀ g0, g0 ∈ db.grades → g0.exam = gd.exam → g0.student = gd.student →
        createGrade db newId gd =
          .error ⟨"Grade already exists for this student in this exam", 400⟩) := by
  refine ⟨?_, ?_, ?_⟩
  · intro e _ _
    exact createGrade_isOk_false db newId gd
  · intro e st hex hst hrole hdup hm
    unfold createGrade
    rw [hdup, hex, hst]
    simp [hrole, hm]
  · intro g0 hmem h1 h2
    have hsome : (db.grades.find? (fun g =>
        g.exam = gd.exam ∧ g.student = gd.student)).isSome = true := by
      apply List.find?_isSome.mpr
      exact ⟨g0, hmem, by simp [h1, h2]⟩
    unfold createGrade
    rw [if_pos hsome]

/-- C5 witness: the guards at concrete inputs on the sample database. -/
theorem createGrade_guards_witness :
    findExam dbMain.exams 100 = some examMid
    ∧ findUser dbMain.users 4 = some uStudentB
    ∧ uStudentB.role = "STUDENT"
    ∧ dbMain.grades.find? (fun g => g.exam = 100 ∧ g.student = 4) = none
    ∧ (105 : Rat) > examMid.maxMarks
    ∧ createGrade dbMain 999
        { exam := 100, student := 4, marks := 105, gradedBy := 1 } =
        .error ⟨"Marks cannot exceed maximum marks for this exam", 400⟩
    ∧ gradeExisting ∈ dbMain.grades
    ∧ createGrade dbMain 999
        { exam := 100, student := 3, marks := 10, gradedBy := 1 } =
        .error ⟨"Grade already exists for this student in this exam", 400⟩ :=
  ⟨rfl, rfl, rfl, rfl, by norm_num [examMid],
   (createGrade_guards dbMain 999
      { exam := 100, student := 4, marks := 105, gradedBy := 1 }).2.1
      examMid uStudentB rfl rfl rfl rfl (by norm_num [examMid]),
   by simp [dbMain],
   (createGrade_guards dbMain 999
      { exam := 100, student := 3, marks := 10, gradedBy := 1 }).2.2
      gradeExisting (by simp [dbMain]) rfl rfl⟩

/-! ## C6: addStudentToClass -/

/-- C6: with the class and a STUDENT-role user resolved,
`addStudentToClass` fails with the already-enrolled error when the
student is in the member list, fails with the capacity error when the
member count has reached capacity, and otherwise succeeds, appending
the student (so the count grows by one and the capacity-th seat is the
last fillable one). -/
theorem addStudentToClass_spec (db : DB) (classId studentId : Nat)
    (c : ClassDoc) (st : UserDoc)
    (hc : findClass db.classes classId = some c)
    (hs : findUser db.users studentId = some st)
    (hrole : st.role = "STUDENT") :
    (studentId ∈ c.students →
      addStudentToClass db classId studentId =
        .error ⟨"Student is already enrolled in this class", 400⟩)
    ∧ (studentId ∉ c.students → c.students.length ≥ c.capacity →
      addStudentToClass db classId studentId =
        .error ⟨"Class is at maximum capacity", 400⟩)
    ∧ (studentId ∉ c.students → c.students.length < c.capacity →
      classValidate { c with students := c.students ++ [studentId] } = true →
      addStudentToClass db classId studentId =
        .ok ({ c with students := c.students ++ [studentId] },
             { db with
               classes := saveClassDoc db.classes
                 { c with students := c.students ++ [studentId] },
               users := setUserMetaClass db.users studentId classId })
      ∧ ({ c with students := c.students ++ [studentId] } : ClassDoc).students.length
          = c.students.length + 1) := by
  have hcid : c.id = classId := by
    have := List.find?_some hc
    exact of_decide_eq_true this
  have hany : (db.classes.any (fun d => d.id = classId)) = true :=
    any_of_find?_some _ _ _ hc
  refine ⟨?_, ?_, ?_⟩
  · intro hmem
    have hcont : c.students.contains studentId = true :=
      List.elem_iff.mpr hmem
    unfold addStudentToClass
    rw [hc, hs]
    dsimp only
    rw [if_neg (fun h => h hrole), if_pos hcont]
  · intro hnot hcap
    have hcont : ¬ (c.students.contains studentId = true) :=
      fun h => absurd (List.elem_iff.mp h) hnot
    unfold addStudentToClass
    rw [hc, hs]
    dsimp only
    rw [if_neg (fun h => h hrole), if_neg hcont, if_pos hcap]
  · intro hnot hlt hv
    have hcont : ¬ (c.students.contains studentId = true) :=
      fun h => absurd (List.elem_iff.mp h) hnot
    have hfind2 : findClass
        (saveClassDoc db.classes { c with students := c.students ++ [studentId] })
        classId = some { c with students := c.students ++ [studentId] } :=
      findClass_save_found db.classes classId _ hcid hany
    have hnotge : ¬ c.students.length ≥ c.capacity := Nat.not_le.mpr hlt
    constructor
    · unfold addStudentToClass
      rw [hc, hs]
      dsimp only
      rw [if_neg (fun h => h hrole), if_neg hcont, if_neg hnotge, if_pos hv]
      simp [getClassById, hfind2]
    · simp

/-- C6 witness: enrolling into the sample classes — duplicate add and
over-capacity add fail, the free-seat add succeeds. -/
theorem addStudentToClass_spec_witness :
    (3 ∈ clsTwo.students)
    ∧ addStudentToClass dbMain 10 3 =
        .error ⟨"Student is already enrolled in this class", 400⟩
    ∧ (5 ∉ clsTwo.students)
    ∧ clsTwo.students.length ≥ clsTwo.capacity
    ∧ addStudentToClass dbMain 10 5 =
        .error ⟨"Class is at maximum capacity", 400⟩
    ∧ (4 ∉ clsOpen.students)
    ∧ clsOpen.students.length < clsOpen.capacity
    ∧ addStudentToClass dbMain 11 4 =
        .ok ({ clsOpen with students := clsOpen.students ++ [4] },
             { dbMain with
               classes := saveClassDoc dbMain.classes
                 { clsOpen with students := clsOpen.students ++ [4] },
               users := setUserMetaClass dbMain.users 4 11 }) :=
  ⟨by decide,
   (addStudentToClass_spec dbMain 10 3 clsTwo uStudentA rfl rfl rfl).1 (by decide),
   by decide, by decide,
   (addStudentToClass_spec dbMain 10 5 clsTwo uStudentC rfl rfl rfl).2.1
     (by decide) (by decide),
   by decide, by decide,
   ((addStudentToClass_spec dbMain 11 4 clsOpen uStudentB rfl rfl rfl).2.2
     (by decide) (by decide) (by decide)).1⟩

/-! ## C10: removeStudentFromClass is total and idempotent -/

/-- C10: once the class exists (and the stored document passes schema
validation, as every persisted document does), `removeStudentFromClass`
succeeds even for an absent student — the member list is then left
unchanged — and removing the same student twice produces exactly the
state of removing them once. -/
theorem removeStudentFromClass_idempotent (db : DB) (classId studentId : Nat)
    (c : ClassDoc)
    (hc : findClass db.classes classId = some c)
    (hv : classValidate
      { c with students := c.students.filter (fun sid => sid ≠ studentId) }
        = true) :
    removeStudentFromClass db classId studentId =
      .ok ({ c with students := c.students.filter (fun sid => sid ≠ studentId) },
           { db with
             classes := saveClassDoc db.classes
               { c with students := c.students.filter (fun sid => sid ≠ studentId) },
             users := unsetUserMetaClass db.users studentId })
    ∧ (studentId ∉ c.students →
        ({ c with students := c.students.filter (fun sid => sid ≠ studentId) }
          : ClassDoc).students = c.students)
    ∧ removeStudentFromClass
        { db with
          classes := saveClassDoc db.classes
            { c with students := c.students.filter (fun sid => sid ≠ studentId) },
          users := unsetUserMetaClass db.users studentId }
        classId studentId =
      .ok ({ c with students := c.students.filter (fun sid => sid ≠ studentId) },
           { db with
             classes := saveClassDoc db.classes
               { c with students := c.students.filter (fun sid => sid ≠ studentId) },
             users := unsetUserMetaClass db.users studentId }) := by
  have hcid : c.id = classId := by
    have := List.find?_some hc
    exact of_decide_eq_true this
  have hany : (db.classes.any (fun d => d.id = classId)) = true :=
    any_of_find?_some _ _ _ hc
  have hfind2 : findClass
      (saveClassDoc db.classes
        { c with students := c.students.filter (fun sid => sid ≠ studentId) })
      classId =
        some { c with students := c.students.filter (fun sid => sid ≠ studentId) } :=
    findClass_save_found db.classes classId _ hcid hany
  refine ⟨?_, ?_, ?_⟩
  · unfold removeStudentFromClass
    rw [hc]
    dsimp only
    rw [if_pos hv]
    unfold getClassById
    rw [hfind2]
  · intro hnot
    dsimp only
    apply List.filter_eq_self.mpr
    intro a ha
    exact decide_eq_true (fun heq => hnot (heq ▸ ha))
  · have hfilter2 :
        ((c.students.filter (fun sid => sid ≠ studentId)).filter
          (fun sid => sid ≠ studentId)) =
        c.students.filter (fun sid => sid ≠ studentId) := by
      apply List.filter_eq_self.mpr
      intro a ha
      have hpa := List.of_mem_filter ha
      exact hpa
    have hcc :
        ({ c with students :=
            ((c.students.filter (fun sid => sid ≠ studentId)).filter
              (fun sid => sid ≠ studentId)) } : ClassDoc) =
        { c with students := c.students.filter (fun sid => sid ≠ studentId) } := by
      rw [hfilter2]
    have hany2 : (db.classes.any (fun d =>
        d.id = ({ c with students := c.students.filter (fun sid => sid ≠ studentId) }
          : ClassDoc).id)) = true := by
      simp only [hcid]
      exact hany
    have hsave2 := saveClassDoc_idem db.classes
      { c with students := c.students.filter (fun sid => sid ≠ studentId) } hany2
    unfold removeStudentFromClass
    rw [hfind2]
    dsimp only
    rw [hcc, if_pos hv, hsave2, unsetUserMetaClass_idem]
    unfold getClassById
    rw [hfind2]

/-- C10 witness: removing an absent student from the sample class
succeeds and leaves the member list unchanged. -/
theorem removeStudentFromClass_idempotent_witness :
    findClass dbMain.classes 11 = some clsOpen
    ∧ classValidate
        { clsOpen with students := clsOpen.students.filter (fun sid => sid ≠ 4) }
        = true
    ∧ removeStudentFromClass dbMain 11 4 =
        .ok ({ clsOpen with
               students := clsOpen.students.filter (fun sid => sid ≠ 4) },
             { dbMain with
               classes := saveClassDoc dbMain.classes
                 { clsOpen with
                   students := clsOpen.students.filter (fun sid => sid ≠ 4) },
               users := unsetUserMetaClass dbMain.users 4 })
    ∧ ({ clsOpen with students := clsOpen.students.filter (fun sid => sid ≠ 4) }
        : ClassDoc).students = clsOpen.students :=
  ⟨rfl, by decide,
   (removeStudentFromClass_idempotent dbMain 11 4 clsOpen rfl (by decide)).1,
   (removeStudentFromClass_idempotent dbMain 11 4 clsOpen rfl
      (by decide)).2.1 (by decide)⟩

/-! ## C2: the class-capacity invariant -/

/-- Saving an invariant-satisfying class document preserves the
database-wide invariant. -/
theorem dbClassInv_save (db : DB) (c : ClassDoc)
    (h : dbClassInv db = true) (hc : classInvariant c = true) :
    dbClassInv { db with classes := saveClassDoc db.classes c } = true := by
  unfold dbClassInv at h ⊢
  dsimp only
  unfold saveClassDoc
  exact all_save classInvariant ClassDoc.id db.classes c h hc

/-- C2 counterexample: from an invariant-satisfying state, `updateClass`
lowers a class's capacity below its current member count — the service
never compares the two — and the resulting state violates
students.length ≤ capacity. -/
theorem updateClass_capacity_counterexample :
    dbClassInv dbMain = true
    ∧ updateClass dbMain 10 { capacity := some 1 } =
        .ok (clsTwoCap1, dbAfterCapacityUpdate)
    ∧ classInvariant clsTwoCap1 = false
    ∧ dbClassInv dbAfterCapacityUpdate = false :=
  ⟨by decide, rfl, by decide, by decide⟩

/-- C2 amended: the invariant students.length ≤ capacity is preserved
by `createClass`, `addStudentToClass`, and `removeStudentFromClass`;
`updateClass` preserves it only under the additional premise that the
updated capacity is not set below the current member count, a premise
the service itself never checks. -/
theorem class_capacity_inv_preserved (db : DB) (h : dbClassInv db = true) :
    (∀ newId d c2 db2, createClass db newId d = .ok (c2, db2) →
      dbClassInv db2 = true)
    ∧ (∀ classId studentId c2 db2,
        addStudentToClass db classId studentId = .ok (c2, db2) →
        dbClassInv db2 = true)
    ∧ (∀ classId studentId c2 db2,
        removeStudentFromClass db classId studentId = .ok (c2, db2) →
        dbClassInv db2 = true)
    ∧ (∀ id upd c2 db2,
        (∀ c, findClass db.classes id = some c →
          c.students.length ≤ upd.capacity.getD c.capacity) →
        updateClass db id upd = .ok (c2, db2) → dbClassInv db2 = true) := by
  refine ⟨?_, ?_, ?_, ?_⟩
  · intro newId d c2 db2 hop
    unfold createClass at hop
    split at hop
    · simp at hop
    · split at hop
      · simp at hop
      · split at hop
        · simp at hop
        · dsimp only at hop
          split at hop
          · simp only [Except.ok.injEq, Prod.mk.injEq] at hop
            obtain ⟨h1, h2⟩ := hop
            subst h2
            exact dbClassInv_save db _ h (by simp [classInvariant])
          · simp at hop
  · intro classId studentId c2 db2 hop
    unfold addStudentToClass at hop
    split at hop
    · simp at hop
    · rename_i cD heqc
      split at hop
      · simp at hop
      · split at hop
        · simp at hop
        · split at hop
          · simp at hop
          · split at hop
            · simp at hop
            · rename_i hrole hcont hcap
              dsimp only at hop
              split at hop
              · split at hop
                · simp only [Except.ok.injEq, Prod.mk.injEq] at hop
                  obtain ⟨h1, h2⟩ := hop
                  subst h2
                  apply dbClassInv_save db _ h
                  simp only [classInvariant, List.length_append]
                  have hlt := Nat.lt_of_not_le hcap
                  simp
                  omega
                · simp at hop
              · simp at hop
  · intro classId studentId c2 db2 hop
    unfold removeStudentFromClass at hop
    split at hop
    · simp at hop
    · rename_i cD heqc
      dsimp only at hop
      split at hop
      · split at hop
        · simp only [Except.ok.injEq, Prod.mk.injEq] at hop
          obtain ⟨h1, h2⟩ := hop
          subst h2
          apply dbClassInv_save db _ h
          have hmem := List.mem_of_find?_eq_some heqc
          have hinv : classInvariant cD = true := by
            unfold dbClassInv at h
            exact List.all_eq_true.mp h cD hmem
          simp only [classInvariant, decide_eq_true_eq] at hinv ⊢
          exact le_trans (List.length_filter_le _ _) hinv
        · simp at hop
      · simp at hop
  · intro id upd c2 db2 hside hop
    unfold updateClass at hop
    split at hop
    · simp at hop
    · rename_i cD heqc
      have hinvU : classInvariant (applyClassUpdate upd cD) = true := by
        have := hside cD heqc
        simp only [classInvariant, applyClassUpdate, decide_eq_true_eq]
        exact this
      split at hop
      · simp at hop
      · split at hop
        · split at hop
          · simp at hop
          · split at hop
            · simp at hop
            · unfold saveUpdatedClass at hop
              dsimp only at hop
              split at hop
              · simp only [Except.ok.injEq, Prod.mk.injEq] at hop
                obtain ⟨h1, h2⟩ := hop
                subst h2
                exact dbClassInv_save db _ h hinvU
              · simp at hop
        · unfold saveUpdatedClass at hop
          dsimp only at hop
          split at hop
          · simp only [Except.ok.injEq, Prod.mk.injEq] at hop
            obtain ⟨h1, h2⟩ := hop
            subst h2
            exact dbClassInv_save db _ h hinvU
          · simp at hop

/-- C2 witness: preservation applied on the sample database — adding a
student to the open class and a capacity-raising update both keep the
invariant. -/
theorem class_capacity_inv_preserved_witness :
    dbClassInv dbMain = true
    ∧ dbClassInv
        { dbMain with
          classes := saveClassDoc dbMain.classes
            { clsOpen with students := clsOpen.students ++ [4] },
          users := setUserMetaClass dbMain.users 4 11 } = true
    ∧ dbClassInv
        { dbMain with
          classes :=
            saveClassDoc dbMain.classes
              (applyClassUpdate { capacity := some 3 } clsTwo) } = true :=
  ⟨by decide,
   (class_capacity_inv_preserved dbMain (by decide)).2.1 11 4 _ _ rfl,
   (class_capacity_inv_preserved dbMain (by decide)).2.2.2 10
     { capacity := some 3 } _ _
     (fun c hc => by
       have hc2 : (some clsTwo : Option ClassDoc) = some c := hc
       injection hc2 with h2
       subst h2
       decide)
     rfl⟩

end SMS
